import Mathlib

/-!
Verification of the capability-bitmask model, identity resolution and
derived-value functions of `custom_components/solax_modbus/plugin_sofar.py`.

The embedding models Python integers used as capability bitmasks by `Nat`
(all masks in the source are nonnegative bit patterns), Python strings by
`List Char` (serial numbers are ASCII), the optional blacklist argument
(default `None`) by `Option (List (List Char))`, and a fallible register
read returning either a decoded string or an error by `Option (List Char)`.
A value dictionary is modelled as a partial map `String → Option Int`;
a lookup returning `none` models a Python `KeyError` on `d[key]`, while
`(d k).getD v` models `d.get(k, v)`.
-/

namespace SofarPlugin

/-- Bitmask constants, organized by group, from the top of the plugin. -/
def GEN : Nat := 0x0001

def GEN2 : Nat := 0x0002

def GEN3 : Nat := 0x0004

def GEN4 : Nat := 0x0008

def ALL_GEN_GROUP : Nat := GEN2 ||| GEN3 ||| GEN4 ||| GEN

def X1 : Nat := 0x0100

def X3 : Nat := 0x0200

def ALL_X_GROUP : Nat := X1 ||| X3

def PV : Nat := 0x0400

def AC : Nat := 0x0800

def HYBRID : Nat := 0x1000

def MIC : Nat := 0x2000

def ALL_TYPE_GROUP : Nat := PV ||| AC ||| HYBRID ||| MIC

def EPS : Nat := 0x8000

def ALL_EPS_GROUP : Nat := EPS

def DCB : Nat := 0x10000

def ALL_DCB_GROUP : Nat := DCB

def PM : Nat := 0x20000

def ALL_PM_GROUP : Nat := PM

def ALLDEFAULT : Nat := 0

/-- The blacklist test inside `matchInverterWithMask`: `blacklisted` starts
out `False` and is set when some entry of a truthy blacklist is a prefix of
the serial number (`serialnumber.startswith(start)`).  A `None` blacklist
(and likewise an empty list, both falsy in Python) leaves it `False`. -/
def isBlacklisted (serialnumber : List Char)
    (blacklist : Option (List (List Char))) : Bool :=
  match blacklist with
  | none => false
  | some bl => bl.any fun start => start.isPrefixOf serialnumber

/-- Embedding of `matchInverterWithMask(inverterspec, entitymask,
serialnumber, blacklist)`: six per-group tests, AND across groups,
and the blacklist veto. -/
def matchInverterWithMask (inverterspec entitymask : Nat)
    (serialnumber : List Char)
    (blacklist : Option (List (List Char))) : Bool :=
  let genmatch := ((inverterspec &&& entitymask &&& ALL_GEN_GROUP) != 0)
      || ((entitymask &&& ALL_GEN_GROUP) == 0)
  let xmatch := ((inverterspec &&& entitymask &&& ALL_X_GROUP) != 0)
      || ((entitymask &&& ALL_X_GROUP) == 0)
  let hybmatch := ((inverterspec &&& entitymask &&& ALL_TYPE_GROUP) != 0)
      || ((entitymask &&& ALL_TYPE_GROUP) == 0)
  let epsmatch := ((inverterspec &&& entitymask &&& ALL_EPS_GROUP) != 0)
      || ((entitymask &&& ALL_EPS_GROUP) == 0)
  let dcbmatch := ((inverterspec &&& entitymask &&& ALL_DCB_GROUP) != 0)
      || ((entitymask &&& ALL_DCB_GROUP) == 0)
  let pmmatch := ((inverterspec &&& entitymask &&& ALL_PM_GROUP) != 0)
      || ((entitymask &&& ALL_PM_GROUP) == 0)
  (genmatch && xmatch && hybmatch && epsmatch && dcbmatch && pmmatch)
    && !(isBlacklisted serialnumber blacklist)

/-- C1: `matchInverterWithMask` returns true iff, for each of the six groups
(generation, X, type, EPS, DCB, PM), the AND of device capabilities,
requirement mask and group mask is non-zero or the requirement mask has no
bits in that group, and the serial number starts with no blacklist entry. -/
theorem matchInverterWithMask_iff (inverterspec entitymask : Nat)
    (serialnumber : List Char) (blacklist : Option (List (List Char))) :
    matchInverterWithMask inverterspec entitymask serialnumber blacklist = true ↔
      ((inverterspec &&& entitymask &&& ALL_GEN_GROUP ≠ 0 ∨
          entitymask &&& ALL_GEN_GROUP = 0) ∧
        (inverterspec &&& entitymask &&& ALL_X_GROUP ≠ 0 ∨
          entitymask &&& ALL_X_GROUP = 0) ∧
        (inverterspec &&& entitymask &&& ALL_TYPE_GROUP ≠ 0 ∨
          entitymask &&& ALL_TYPE_GROUP = 0) ∧
        (inverterspec &&& entitymask &&& ALL_EPS_GROUP ≠ 0 ∨
          entitymask &&& ALL_EPS_GROUP = 0) ∧
        (inverterspec &&& entitymask &&& ALL_DCB_GROUP ≠ 0 ∨
          entitymask &&& ALL_DCB_GROUP = 0) ∧
        (inverterspec &&& entitymask &&& ALL_PM_GROUP ≠ 0 ∨
          entitymask &&& ALL_PM_GROUP = 0)) ∧
      ∀ p ∈ blacklist.getD [], p.isPrefixOf serialnumber = false := by
  cases blacklist with
  | none =>
      simp only [matchInverterWithMask, isBlacklisted, Bool.and_eq_true,
        Bool.or_eq_true, Bool.not_eq_true', bne_iff_ne, beq_iff_eq, ne_eq,
        Option.getD_none, List.not_mem_nil, false_implies, implies_true,
        and_true, and_assoc]
  | some bl =>
      simp only [matchInverterWithMask, isBlacklisted, Bool.and_eq_true,
        Bool.or_eq_true, Bool.not_eq_true', List.any_eq_false, bne_iff_ne,
        beq_iff_eq, ne_eq, Option.getD_some, Bool.not_eq_true, and_assoc]

/-- C7: a requirement mask of 0 with no blacklist matches every device and
every serial number. -/
theorem matchInverterWithMask_zero_mask (inverterspec : Nat)
    (serialnumber : List Char) :
    matchInverterWithMask inverterspec 0 serialnumber none = true := by
  simp [matchInverterWithMask, isBlacklisted, Nat.and_zero, Nat.zero_and]

/-- Helper: the blacklist veto factors out of `matchInverterWithMask`. -/
theorem matchInverterWithMask_decomp (inverterspec entitymask : Nat)
    (serialnumber : List Char) (blacklist : Option (List (List Char))) :
    matchInverterWithMask inverterspec entitymask serialnumber blacklist =
      (matchInverterWithMask inverterspec entitymask serialnumber none
        && !(isBlacklisted serialnumber blacklist)) := by
  simp only [matchInverterWithMask, isBlacklisted, Bool.not_false,
    Bool.and_true]

/-- C8: the result is vetoed by the blacklist iff the blacklist is a
non-empty list one of whose entries is a character-for-character prefix of
the serial number; an absent (`None`) or empty blacklist never blacklists,
and the blacklist veto factors out of the group matching, independent of
both capability masks. -/
theorem matchInverterWithMask_blacklist (inverterspec entitymask : Nat)
    (serialnumber : List Char) (bl : List (List Char))
    (blacklist : Option (List (List Char))) :
    (isBlacklisted serialnumber (some bl) = true ↔
        bl ≠ [] ∧ ∃ p ∈ bl, p.isPrefixOf serialnumber = true) ∧
      isBlacklisted serialnumber none = false ∧
      isBlacklisted serialnumber (some []) = false ∧
      (matchInverterWithMask inverterspec entitymask serialnumber blacklist
          = true ↔
        matchInverterWithMask inverterspec entitymask serialnumber none = true ∧
          isBlacklisted serialnumber blacklist = false) := by
  refine ⟨?_, rfl, rfl, ?_⟩
  · simp only [isBlacklisted, List.any_eq_true]
    constructor
    · rintro ⟨p, hp, hpre⟩
      exact ⟨List.ne_nil_of_mem hp, p, hp, hpre⟩
    · rintro ⟨-, p, hp, hpre⟩
      exact ⟨p, hp, hpre⟩
  · rw [matchInverterWithMask_decomp inverterspec entitymask serialnumber
      blacklist]
    simp only [Bool.and_eq_true, Bool.not_eq_true']

/-- C9: `matchInverterWithMask` is a total pure function: on every pair of
bit patterns, every serial number and every (possibly absent) blacklist it
returns one of the two boolean values, and equal inputs give equal
outputs. -/
theorem matchInverterWithMask_total (inverterspec entitymask : Nat)
    (serialnumber : List Char) (blacklist : Option (List (List Char))) :
    (matchInverterWithMask inverterspec entitymask serialnumber blacklist
        = true ∨
      matchInverterWithMask inverterspec entitymask serialnumber blacklist
        = false) ∧
    ∀ a b s c, inverterspec = a → entitymask = b → serialnumber = s →
      blacklist = c →
      matchInverterWithMask inverterspec entitymask serialnumber blacklist =
        matchInverterWithMask a b s c := by
  constructor
  · cases matchInverterWithMask inverterspec entitymask serialnumber blacklist
    · exact Or.inr rfl
    · exact Or.inl rfl
  · rintro a b s c rfl rfl rfl rfl
    rfl

/-- The pairwise byte swap performed inside `_read_serialnr` when
`swapbytes` is set: `ba[0::2], ba[1::2] = ba[1::2], ba[0::2]` on the
even-length (14 byte) decoded string exchanges bytes `2i` and `2i+1`. -/
def swapPairs : List Char → List Char
  | a :: b :: rest => b :: a :: swapPairs rest
  | l => l

/-- Embedding of `_read_serialnr(hub, address, swapbytes)`.  The transport
read and ASCII decode are modelled by `raw`: `none` when the register read
errors out (the `except` path yielding `res = None`), `some` the decoded
string otherwise.  The function returns the decoded string, byte-swapped
when `swapbytes` is set. -/
def _read_serialnr (raw : Option (List Char)) (swapbytes : Bool) :
    Option (List Char) :=
  match raw with
  | none => none
  | some res => some (if swapbytes then swapPairs res else res)

/-- The prefix-to-capability chain of `determineInverterType`, in authored
order; the final `else` branch is the unrecognized-identity case. -/
def baseInverterType (seriesnumber : List Char) : Nat :=
  if "SP1ES120N6".toList.isPrefixOf seriesnumber then HYBRID ||| X3
  else if "SP1".toList.isPrefixOf seriesnumber then HYBRID ||| X3 ||| GEN
  else if "SP2".toList.isPrefixOf seriesnumber then HYBRID ||| X3 ||| GEN
  else if "SM1E".toList.isPrefixOf seriesnumber then HYBRID ||| X3 ||| GEN
  else if "ZM1E".toList.isPrefixOf seriesnumber then HYBRID ||| X3 ||| GEN
  else if "SS2E".toList.isPrefixOf seriesnumber then PV ||| X3 ||| GEN
  else if "SA1".toList.isPrefixOf seriesnumber then PV ||| X1
  else if "SB1".toList.isPrefixOf seriesnumber then PV ||| X1
  else if "SC1".toList.isPrefixOf seriesnumber then PV ||| X3
  else if "SD1".toList.isPrefixOf seriesnumber then PV ||| X3
  else if "SF4".toList.isPrefixOf seriesnumber then PV ||| X3
  else if "SH1".toList.isPrefixOf seriesnumber then PV ||| X3
  else if "SL1".toList.isPrefixOf seriesnumber then PV ||| X3
  else if "SJ2".toList.isPrefixOf seriesnumber then PV ||| X3
  else 0

/-- Python truthiness of the serial-read result: `None` and the empty
string are falsy (`if not seriesnumber`). -/
def falsy : Option (List Char) → Bool
  | none => true
  | some s => s.isEmpty

/-- Embedding of `determineInverterType(hub, configdict)`.  `read1` and
`read2` are the results of the serial reads at `0x445` and at the fallback
`0x2001` (both with `swapbytes = False`); `read_eps`, `read_dcb` and
`read_pm` are the configuration toggles.  Returns the pair of the resolved
series number and the capability mask stored into `hub.invertertype`. -/
def determineInverterType (read1 read2 : Option (List Char))
    (read_eps read_dcb read_pm : Bool) : List Char × Nat :=
  let sn1 := _read_serialnr read1 false
  let sn2 := if falsy sn1 then _read_serialnr read2 false else sn1
  let seriesnumber := match sn2 with
    | none => "unknown".toList
    | some s => if s.isEmpty then "unknown".toList else s
  let invertertype0 := baseInverterType seriesnumber
  let invertertype1 := if read_eps then invertertype0 ||| EPS else invertertype0
  let invertertype2 := if read_dcb then invertertype1 ||| DCB else invertertype1
  let invertertype3 := if read_pm then invertertype2 ||| PM else invertertype2
  (seriesnumber, invertertype3)

/-- C2 counterexample: with both serial reads failed and `read_eps` enabled
in the configuration, `determineInverterType` stores capability mask
`0x8000` (the EPS bit) on the hub, not zero. -/
theorem determineInverterType_bothfail_counterexample :
    (determineInverterType none none true false false).2 = 0x8000 ∧
      (determineInverterType none none true false false).2 ≠ 0 := by
  decide

/-- C2 amended: when both serial reads fail, the synthetic identity is
`"unknown"` and the stored capability mask is exactly the union of the
enabled toggle bits; in particular with all toggles disabled it is zero. -/
theorem determineInverterType_bothfail (e d p : Bool) :
    determineInverterType none none e d p =
      ("unknown".toList,
        (if e then EPS else 0) ||| (if d then DCB else 0) |||
          (if p then PM else 0)) ∧
      baseInverterType "unknown".toList = 0 ∧
      determineInverterType none none false false false =
        ("unknown".toList, 0) := by
  revert e d p
  decide

/-- C4: the prefix rules are applied in authored order, first match wins:
every serial starting with `"SP1ES120N6"` resolves to `HYBRID ||| X3` even
though the shorter prefix `"SP1"` (mapping to `HYBRID ||| X3 ||| GEN`)
also matches, and every serial starting with `"SA1"` resolves to
`PV ||| X1`; neither result has a generation-group bit set. -/
theorem baseInverterType_first_match (r1 r2 : List Char) :
    baseInverterType ("SP1ES120N6".toList ++ r1) = HYBRID ||| X3 ∧
      "SP1".toList.isPrefixOf ("SP1ES120N6".toList ++ r1) = true ∧
      baseInverterType ("SA1".toList ++ r2) = PV ||| X1 ∧
      (HYBRID ||| X3) &&& ALL_GEN_GROUP = 0 ∧
      (PV ||| X1) &&& ALL_GEN_GROUP = 0 := by
  refine ⟨?_, ?_, ?_, by decide, by decide⟩
  · simp [baseInverterType, List.isPrefixOf]
  · simp [List.isPrefixOf]
  · simp [baseInverterType, List.isPrefixOf]

/-- Helper: `determineInverterType` on a successful first read of a
non-empty string keeps that string and ORs the toggle bits onto the base
mask. -/
theorem determineInverterType_cons (a : Char) (t : List Char)
    (read2 : Option (List Char)) (e d p : Bool) :
    determineInverterType (some (a :: t)) read2 e d p =
      (a :: t,
        baseInverterType (a :: t) |||
          ((if e then EPS else 0) ||| (if d then DCB else 0) |||
            (if p then PM else 0))) := by
  cases e <;> cases d <;> cases p <;>
    simp [determineInverterType, _read_serialnr, falsy, Nat.or_zero,
      Nat.or_assoc]

/-- C5: for every non-empty decoded serial the stored mask equals the base
mask ORed with the union of the enabled toggle bits, each toggle one
independent bit; when the serial matches no known prefix the base mask is
zero, and with only `read_eps` enabled the mask is exactly the EPS bit. -/
theorem determineInverterType_toggles (sn : List Char)
    (read2 : Option (List Char)) (e d p : Bool) (hsn : sn ≠ []) :
    (determineInverterType (some sn) read2 e d p).2 =
      baseInverterType sn |||
        ((if e then EPS else 0) ||| (if d then DCB else 0) |||
          (if p then PM else 0)) ∧
      (baseInverterType sn = 0 →
        (determineInverterType (some sn) read2 e d p).2 =
          (if e then EPS else 0) ||| (if d then DCB else 0) |||
            (if p then PM else 0)) ∧
      (baseInverterType sn = 0 →
        (determineInverterType (some sn) read2 true false false).2 = EPS) := by
  match sn with
  | [] => exact absurd rfl hsn
  | a :: t =>
      refine ⟨?_, fun h => ?_, fun h => ?_⟩
      · rw [determineInverterType_cons]
      · rw [determineInverterType_cons]
        simp [h]
      · rw [determineInverterType_cons]
        simp [h]

/-- C5 witness: the unrecognized serial "QQQ" with only `read_eps`
enabled yields exactly the EPS bit. -/
theorem determineInverterType_toggles_witness :
    (determineInverterType (some "QQQ".toList) none true false false).2 =
      EPS :=
  (determineInverterType_toggles "QQQ".toList none true false false
    (by decide)).2.2 (by decide)

/-- Helper: the pairwise swap exchanges the entries at indices `2i` and
`2i+1` whenever both indices are in range. -/
theorem swapPairs_get (i : Nat) (l : List Char)
    (h : 2 * i + 1 < l.length) :
    (swapPairs l)[2 * i]? = l[2 * i + 1]? ∧
      (swapPairs l)[2 * i + 1]? = l[2 * i]? := by
  induction i generalizing l with
  | zero =>
      match l with
      | [] => simp at h
      | [a] => simp at h
      | a :: b :: t => simp [swapPairs]
  | succ n ih =>
      match l with
      | [] => simp at h
      | [a] => simp at h
      | a :: b :: t =>
          have ht : 2 * n + 1 < t.length := by
            simp only [List.length_cons] at h
            omega
          have hrec := ih t ht
          have e1 : 2 * (n + 1) = 2 * n + 1 + 1 := by omega
          rw [e1]
          simpa only [swapPairs, List.getElem?_cons_succ] using hrec

/-- C6 counterexample: a byte-swap-flagged read of raw bytes "PS1E"
decodes to "SPE1", not to a string starting with "SP1E" as the claim
states (the swap exchanges the pair at positions 2 and 3 as well). -/
theorem read_serialnr_swap_counterexample :
    _read_serialnr (some "PS1E".toList) true = some "SPE1".toList ∧
      "SP1E".toList.isPrefixOf "SPE1".toList = false := by
  decide

/-- C6 amended: with the flag false the decoded string is returned
unchanged; with the flag set the reader returns the pairwise-swapped
string, which exchanges the bytes at indices `2i` and `2i+1` for every
in-range pair (so raw pre-swap bytes "PS1E..." decode to "SPE1..."), and
the transformation is deterministic. -/
theorem read_serialnr_swap (raw : Option (List Char)) (l : List Char)
    (i : Nat) :
    _read_serialnr raw false = raw ∧
      _read_serialnr (some l) true = some (swapPairs l) ∧
      (2 * i + 1 < l.length →
        (swapPairs l)[2 * i]? = l[2 * i + 1]? ∧
          (swapPairs l)[2 * i + 1]? = l[2 * i]?) ∧
      (∀ r, swapPairs ("PS1E".toList ++ r) = "SPE1".toList ++ swapPairs r) ∧
      ∀ raw2 flag flag2, raw = raw2 → flag = flag2 →
        _read_serialnr raw flag = _read_serialnr raw2 flag2 := by
  refine ⟨?_, by simp [_read_serialnr], fun h => swapPairs_get i l h, ?_, ?_⟩
  · cases raw <;> simp [_read_serialnr]
  · intro r
    simp [swapPairs]
  · rintro raw2 flag flag2 rfl rfl
    rfl

/-- C6 witness: the swap property applied to the first pair of a concrete
14-byte serial. -/
theorem read_serialnr_swap_witness :
    (swapPairs "PS1ESE21N0XXYY".toList)[0]? =
        ("PS1ESE21N0XXYY".toList)[1]? ∧
      (swapPairs "PS1ESE21N0XXYY".toList)[1]? =
        ("PS1ESE21N0XXYY".toList)[0]? :=
  (read_serialnr_swap none "PS1ESE21N0XXYY".toList 0).2.2.1 (by decide)

/-- Embedding of `value_function_pv_total_power`: both lookups use
`datadict.get(key, 0)`, substituting 0 for an absent key. -/
def value_function_pv_total_power (initval : Int) (descr : Unit)
    (datadict : String → Option Int) : Option Int :=
  some ((datadict "pv_power_1").getD 0 + (datadict "pv_power_2").getD 0)

/-- Embedding of `value_function_grid_import`: the subscript lookup
`datadict["feedin_power"]` raises `KeyError` on an absent key, modelled by
`none`. -/
def value_function_grid_import (initval : Int) (descr : Unit)
    (datadict : String → Option Int) : Option Int :=
  match datadict "feedin_power" with
  | none => none
  | some val => if val < 0 then some (abs val) else some 0

/-- Embedding of `value_function_grid_export`. -/
def value_function_grid_export (initval : Int) (descr : Unit)
    (datadict : String → Option Int) : Option Int :=
  match datadict "feedin_power" with
  | none => none
  | some val => if val > 0 then some val else some 0

/-- Embedding of `value_function_house_load`, subscript lookups on both
keys. -/
def value_function_house_load (initval : Int) (descr : Unit)
    (datadict : String → Option Int) : Option Int :=
  match datadict "inverter_load", datadict "feedin_power" with
  | some l, some f => some (l - f)
  | _, _ => none

/-- C3 counterexample: `value_function_pv_total_power` does not raise a
missing-key error when both of its dependencies are absent; it substitutes
the default 0 and succeeds. -/
theorem value_function_pv_total_power_counterexample :
    value_function_pv_total_power 0 () (fun _ => none) = some 0 ∧
      value_function_pv_total_power 0 () (fun _ => none) ≠ none := by
  decide

/-- C3 amended: the grid-import, grid-export and house-load functions fail
with a missing-key error when a dependency they read is absent, while the
pv-total-power function substitutes the default 0 for absent dependencies
and never fails. -/
theorem derived_value_missing_key (datadict : String → Option Int) :
    (datadict "feedin_power" = none →
      value_function_grid_import 0 () datadict = none ∧
        value_function_grid_export 0 () datadict = none ∧
        value_function_house_load 0 () datadict = none) ∧
      (datadict "inverter_load" = none →
        value_function_house_load 0 () datadict = none) ∧
      (datadict "pv_power_1" = none → datadict "pv_power_2" = none →
        value_function_pv_total_power 0 () datadict = some 0) ∧
      value_function_pv_total_power 0 () datadict ≠ none := by
  refine ⟨fun h => ⟨?_, ?_, ?_⟩, fun h => ?_, fun h1 h2 => ?_, ?_⟩
  · simp [value_function_grid_import, h]
  · simp [value_function_grid_export, h]
  · cases hx : datadict "inverter_load" <;>
      simp [value_function_house_load, h, hx]
  · cases hx : datadict "feedin_power" <;>
      simp [value_function_house_load, h, hx]
  · simp [value_function_pv_total_power, h1, h2]
  · simp [value_function_pv_total_power]

/-- C3 witness: on the empty mapping the three subscript-based functions
fail with the missing-key error. -/
theorem derived_value_missing_key_witness :
    value_function_grid_import 0 () (fun _ => none) = none ∧
      value_function_grid_export 0 () (fun _ => none) = none ∧
      value_function_house_load 0 () (fun _ => none) = none :=
  (derived_value_missing_key (fun _ => none)).1 rfl

/-- C10: with `feedin_power` present with value v, grid export is v when
v > 0 and 0 otherwise, grid import is |v| when v < 0 and 0 otherwise; both
are non-negative, at most one is non-zero, and export minus import equals
v. -/
theorem grid_import_export_balance (datadict : String → Option Int)
    (v : Int) (h : datadict "feedin_power" = some v) :
    value_function_grid_export 0 () datadict =
        some (if v > 0 then v else 0) ∧
      value_function_grid_import 0 () datadict =
        some (if v < 0 then abs v else 0) ∧
      (0 : Int) ≤ (if v > 0 then v else 0) ∧
      (0 : Int) ≤ (if v < 0 then abs v else 0) ∧
      ((if v > 0 then v else 0) = 0 ∨ (if v < 0 then abs v else 0) = 0) ∧
      (if v > 0 then v else 0) - (if v < 0 then abs v else 0) = v := by
  refine ⟨by simp only [value_function_grid_export, h]; split <;> rfl,
    by simp only [value_function_grid_import, h]; split <;> rfl,
    ?_, ?_, ?_, ?_⟩ <;>
      rcases lt_trichotomy v 0 with hv | hv | hv
  · rw [if_neg (by omega)]
  · rw [hv]
    simp
  · rw [if_pos hv]
    omega
  · rw [if_pos hv, abs_of_neg hv]
    omega
  · rw [hv]
    simp
  · rw [if_neg (by omega)]
  · exact Or.inl (by rw [if_neg (by omega)])
  · exact Or.inl (by rw [hv]; simp)
  · exact Or.inr (by rw [if_neg (by omega)])
  · rw [if_neg (by omega), if_pos hv, abs_of_neg hv]
    omega
  · rw [hv]
    simp
  · rw [if_pos hv, if_neg (by omega)]
    omega

/-- C10 witness at v = -5. -/
theorem grid_import_export_balance_witness :
    value_function_grid_export 0 () (fun _ => some (-5)) =
        some (if (-5 : Int) > 0 then (-5 : Int) else 0) ∧
      value_function_grid_import 0 () (fun _ => some (-5)) =
        some (if (-5 : Int) < 0 then abs (-5 : Int) else 0) ∧
      (0 : Int) ≤ (if (-5 : Int) > 0 then (-5 : Int) else 0) ∧
      (0 : Int) ≤ (if (-5 : Int) < 0 then abs (-5 : Int) else 0) ∧
      ((if (-5 : Int) > 0 then (-5 : Int) else 0) = 0 ∨
        (if (-5 : Int) < 0 then abs (-5 : Int) else 0) = 0) ∧
      (if (-5 : Int) > 0 then (-5 : Int) else 0) -
        (if (-5 : Int) < 0 then abs (-5 : Int) else 0) = -5 :=
  grid_import_export_balance (fun _ => some (-5)) (-5) rfl

end SofarPlugin
